import Mathlib

/-!
Verification development for the thermosteam equilibrium-solving engine.
The repository ships the tutorial notebooks `Thermodynamic_equilibrium.ipynb`
and `Thermo_property_packages.ipynb` together with the 0.22 change log; the
solver implementation itself is not part of the source tree, so every solver
definition below is modelled from the specification's words and checked
against the numerical outputs recorded in the notebooks.  All arithmetic is
carried out over `ℚ` so that every definition is executable and exact.
-/

namespace Thermosteam

/-- Elementwise product of two composition-indexed vectors. -/
def mulLists (a b : List ℚ) : List ℚ := List.zipWith (· * ·) a b

/-- Modelled from the spec: `FugacityEngine.liquid_fugacity` (§4.1 of the
spec, `LiquidFugacities.__call__` in the tutorial).  Computes the
per-component liquid fugacity `x_i * γ_i * Psat_i * Poynting_i`. -/
def liquid_fugacity (x gam psat pcf : List ℚ) : List ℚ :=
  mulLists (mulLists (mulLists x gam) psat) pcf

/-- Modelled from the spec: `FugacityEngine.gas_fugacity` (§4.1 of the spec,
`GasFugacities.__call__` in the tutorial).  Computes the per-component gas
fugacity `y_i * φ_i * P`. -/
def gas_fugacity (y phi : List ℚ) (P : ℚ) : List ℚ :=
  (mulLists y phi).map (fun v => v * P)

/-- Activity-coefficient model selector.  The tutorial names
`DortmundActivityCoefficients` as the default, the 0.22.7 change log adds
`NISTActivityCoefficients`, and the spec requires an ideal variant that
returns unit vectors. -/
inductive ActivityModel where
  | dortmund
  | nist
  | idealActivity
deriving DecidableEq

/-- Fugacity-coefficient model selector.  The tutorial shows
`IdealFugacityCoefficients` as the default; the spec treats the model as a
pluggable black box, so a non-ideal placeholder constructor is kept. -/
inductive FugacityCoeffModel where
  | idealPhi
  | equationOfState
deriving DecidableEq

/-- Poynting-correction model selector.  The tutorial shows
`IdealPoyintingCorrectionFactors` as the default. -/
inductive PoyntingModel where
  | idealPCF
  | pressureDependent
deriving DecidableEq

/-- Modelled from the spec: the ideal fugacity-coefficient model returns a
unit vector of the component count (§6 of the spec: an ideal variant of each
role always returns unit vectors).  The non-ideal placeholder perturbs each
coefficient with a pressure-proportional virial-style term. -/
def FugacityCoeffModel.evaluate : FugacityCoeffModel → List ℚ → ℚ → ℚ → List ℚ
  | .idealPhi, y, _, _ => y.map (fun _ => 1)
  | .equationOfState, y, T, P => y.map (fun yi => 1 + yi * P / (1 + T))

/-- Modelled from the spec: the ideal Poynting model returns a unit vector;
the non-ideal placeholder applies a pressure-linear correction. -/
def PoyntingModel.evaluate : PoyntingModel → List ℚ → ℚ → ℚ → List ℚ
  | .idealPCF, x, _, _ => x.map (fun _ => 1)
  | .pressureDependent, x, _, P => x.map (fun _ => 1 + P / 1000000000)

/-- Mixing rule selector for `Mixture` objects; the tutorial only exercises
the ideal rule. -/
inductive MixingRule where
  | ideal
  | nonIdeal
deriving DecidableEq

/-- Modelled from the spec: a `Mixture` object as shown by
`Mixture.from_chemicals` in the property-package tutorial, carrying the
mixing rule and the excess-energy flag. -/
structure Mixture where
  rule : MixingRule
  include_excess_energies : Bool
deriving DecidableEq

/-- Modelled from the spec: a `Thermo` property package holding the three
correction-factor model choices and the mixture object. -/
structure Thermo where
  Gamma : ActivityModel
  Phi : FugacityCoeffModel
  PCF : PoyntingModel
  mixture : Mixture
deriving DecidableEq

/-- Modelled from the spec: the `Thermo` constructor with optional model
arguments.  The property-package tutorial records the defaults:
`Gamma=DortmundActivityCoefficients`, `Phi=IdealFugacityCoefficients`,
`PCF=IdealPoyintingCorrectionFactors`, and an omitted mixture defaults to
an ideal-mixing-rule `Mixture` with `include_excess_energies=False`. -/
def Thermo.make (Gamma : Option ActivityModel) (Phi : Option FugacityCoeffModel)
    (PCF : Option PoyntingModel) (mixture : Option Mixture) : Thermo :=
  { Gamma := Gamma.getD .dortmund
    Phi := Phi.getD .idealPhi
    PCF := PCF.getD .idealPCF
    mixture := mixture.getD { rule := .ideal, include_excess_energies := false } }

/-- Modelled from the spec: `BubblePoint` in bubble-P mode (§4.2 of the
spec).  Given the liquid fraction vector, the correction factors and the
saturation pressures at the fixed temperature, returns the bubble pressure
`P = Σ x_i γ_i Psat_i Poynting_i` and the vapor fractions
`y_i = x_i γ_i Psat_i Poynting_i / (φ_i P)`. -/
def bubblePointP (x gam psat pcf phi : List ℚ) : ℚ × List ℚ :=
  let f := liquid_fugacity x gam psat pcf
  let P := f.sum
  (P, List.zipWith (fun fi phii => fi / (phii * P)) f phi)

/-- Modelled from the spec: `DewPoint` in dew-P mode (§4.2 of the spec,
symmetric construction).  Given the vapor fraction vector and the correction
factors, returns the dew pressure `P = 1 / Σ (y_i φ_i / (γ_i Psat_i PCF_i))`
and the liquid fractions `x_i = y_i φ_i P / (γ_i Psat_i Poynting_i)`. -/
def dewPointP (y gam psat pcf phi : List ℚ) : ℚ × List ℚ :=
  let g := liquid_fugacity ((y.map (fun _ => (1 : ℚ)))) gam psat pcf
  let r := List.zipWith (fun yi phii => yi * phii) y phi
  let s := (List.zipWith (fun ri gi => ri / gi) r g).sum
  let P := 1 / s
  (P, List.zipWith (fun ri gi => ri * P / gi) r g)

/-- Mutable thermal state record {T, P} shared by reference with callers
(§3 of the spec, `ThermalCondition` in the tutorial). -/
structure ThermalCondition where
  T : ℚ
  P : ℚ
deriving DecidableEq

/-- Phase-keyed molar amounts of the binary system used by the VLE object
(the tutorial documents the `x`/`y` options as binary molar compositions):
gas and liquid amounts of components 0 and 1. -/
structure BinaryImol where
  g0 : ℚ
  g1 : ℚ
  l0 : ℚ
  l1 : ℚ
deriving DecidableEq

/-- The running state of a `VLE` object: the material indexer plus the
thermal condition. -/
structure VLEState where
  imol : BinaryImol
  thermal : ThermalCondition
deriving DecidableEq

/-- Error taxonomy of §7 of the spec. -/
inductive EqError where
  | configuration
  | convergenceFailure
  | infeasibleSpecification
  | modelEvaluation
deriving DecidableEq

/-- Total amount of component 0 held by the two phases. -/
def VLEState.tot0 (st : VLEState) : ℚ := st.imol.g0 + st.imol.l0

/-- Total amount of component 1 held by the two phases. -/
def VLEState.tot1 (st : VLEState) : ℚ := st.imol.g1 + st.imol.l1

/-- Modelled from the spec: the `x, P` branch of `VLE.__call__` (§4.3
dispatch table: delegate directly to the bubble-point solver, write back the
resolved temperature and composition; the tutorial records that the
specified pressure is used for the computation but the `ThermalCondition`
keeps its prior pressure).  Saturation pressures follow the linear
pure-component model `Psat_i(T) = a_i * T`; the feed is redistributed by the
lever rule so the liquid phase attains the requested composition. -/
def vle_x_P (a0 a1 : ℚ) (x0 x1 P : ℚ) (st : VLEState) : Except EqError VLEState :=
  let d := x0 * a0 + x1 * a1
  if d = 0 ∨ P = 0 then .error .convergenceFailure else
  let T := P / d
  let y0 := x0 * a0 * T / P
  let y1 := x1 * a1 * T / P
  let tot := st.tot0 + st.tot1
  if tot = 0 ∨ y0 = x0 then .error .convergenceFailure else
  let z0 := st.tot0 / tot
  let V := (z0 - x0) / (y0 - x0)
  .ok { imol := { g0 := tot * V * y0, g1 := tot * V * y1,
                  l0 := tot * (1 - V) * x0, l1 := tot * (1 - V) * x1 },
        thermal := { T := T, P := st.thermal.P } }

/-- Modelled from the spec: the `y, T` branch of `VLE.__call__` (§4.3
dispatch table: delegate directly to the dew-point solver, write back the
resolved pressure and composition; the tutorial records that the specified
temperature is used for the computation but the `ThermalCondition` keeps its
prior temperature). -/
def vle_y_T (a0 a1 : ℚ) (y0 y1 T : ℚ) (st : VLEState) : Except EqError VLEState :=
  if a0 = 0 ∨ a1 = 0 ∨ T = 0 then .error .convergenceFailure else
  let s := y0 / (a0 * T) + y1 / (a1 * T)
  if s = 0 then .error .convergenceFailure else
  let P := 1 / s
  let x0 := y0 * P / (a0 * T)
  let x1 := y1 * P / (a1 * T)
  let tot := st.tot0 + st.tot1
  if tot = 0 ∨ y0 = x0 then .error .convergenceFailure else
  let z0 := st.tot0 / tot
  let V := (z0 - x0) / (y0 - x0)
  .ok { imol := { g0 := tot * V * y0, g1 := tot * V * y1,
                  l0 := tot * (1 - V) * x0, l1 := tot * (1 - V) * x1 },
        thermal := { T := st.thermal.T, P := P } }

/-- Rachford-Rice vapor fraction of the binary ideal flash at the given
K-values and feed fractions (closed form of the binary Rachford-Rice
equation). -/
def rachfordRiceV (K0 K1 z0 z1 : ℚ) : ℚ :=
  -(z0 * (K0 - 1) + z1 * (K1 - 1)) / ((K0 - 1) * (K1 - 1))

/-- Modelled from the spec: the `T, P` branch of `VLE.__call__` (§4.3
dispatch table: flash the total feed at the given temperature and pressure,
solving for the vapor fraction by Rachford-Rice iteration, then
redistribute the amounts into the two phases). -/
def flashTP (a0 a1 : ℚ) (T P : ℚ) (st : VLEState) : Except EqError VLEState :=
  if T = 0 ∨ P = 0 then .error .convergenceFailure else
  let K0 := a0 * T / P
  let K1 := a1 * T / P
  let tot := st.tot0 + st.tot1
  if tot = 0 ∨ K0 = 1 ∨ K1 = 1 then .error .convergenceFailure else
  let z0 := st.tot0 / tot
  let z1 := st.tot1 / tot
  let V := rachfordRiceV K0 K1 z0 z1
  if 1 + V * (K0 - 1) = 0 ∨ 1 + V * (K1 - 1) = 0 then .error .convergenceFailure else
  let x0 := z0 / (1 + V * (K0 - 1))
  let x1 := z1 / (1 + V * (K1 - 1))
  .ok { imol := { g0 := tot * V * (K0 * x0), g1 := tot * V * (K1 * x1),
                  l0 := tot * (1 - V) * x0, l1 := tot * (1 - V) * x1 },
        thermal := { T := T, P := P } }

/-- Modelled from the spec: fuel-limited bisection on a scalar residual
(§4.2 of the spec: outer scalar root-find by bisection bracketed by
physically meaningful bounds; exceeding the iteration budget terminates the
loop with its last iterate). -/
def bisect (f : ℚ → ℚ) : ℕ → ℚ → ℚ → ℚ
  | 0, lo, hi => (lo + hi) / 2
  | n + 1, lo, hi =>
    let mid := (lo + hi) / 2
    if f mid = 0 then mid
    else if f lo * f mid ≤ 0 then bisect f n lo mid
    else bisect f n mid hi

/-- Vapor fraction produced by the binary ideal flash at candidate pressure
`P`, used as the residual of the outer root-find of the `T, V` branch. -/
def flashV (a0 a1 T P z0 z1 : ℚ) : ℚ :=
  rachfordRiceV (a0 * T / P) (a1 * T / P) z0 z1

/-- Modelled from the spec: the `T, V` branch of `VLE.__call__` (§4.3
dispatch table: for candidate `P` evaluate the flash vapor fraction at
`(T, P)` and adjust `P` by root-finding until it matches the target,
bracketed by the dew and bubble pressures of the feed). -/
def vle_T_V (a0 a1 : ℚ) (fuel : ℕ) (T Vt : ℚ) (st : VLEState) : Except EqError VLEState :=
  if a0 = 0 ∨ a1 = 0 ∨ T = 0 then .error .convergenceFailure else
  let tot := st.tot0 + st.tot1
  if tot = 0 then .error .convergenceFailure else
  let z0 := st.tot0 / tot
  let z1 := st.tot1 / tot
  let Pbub := (z0 * a0 + z1 * a1) * T
  let s := z0 / (a0 * T) + z1 / (a1 * T)
  if s = 0 then .error .convergenceFailure else
  let Pdew := 1 / s
  let P := bisect (fun P => flashV a0 a1 T P z0 z1 - Vt) fuel Pdew Pbub
  flashTP a0 a1 T P st

/-- Denominator guard of the `P, V` branch: bubble-temperature denominator
of the feed. -/
def z0lo (a0 a1 : ℚ) (st : VLEState) : ℚ :=
  let tot := st.tot0 + st.tot1
  if tot = 0 then 0 else st.tot0 / tot * a0 + st.tot1 / tot * a1

/-- Modelled from the spec: the `P, V` branch of `VLE.__call__` (§4.3
dispatch table: search the temperature until the flash-computed vapor
fraction matches the target at the fixed pressure). -/
def vle_P_V (a0 a1 : ℚ) (fuel : ℕ) (P Vt : ℚ) (st : VLEState) : Except EqError VLEState :=
  if a0 = 0 ∨ a1 = 0 ∨ P = 0 then .error .convergenceFailure else
  let tot := st.tot0 + st.tot1
  if tot = 0 ∨ z0lo a0 a1 st = 0 then .error .convergenceFailure else
  let z0 := st.tot0 / tot
  let z1 := st.tot1 / tot
  let Tbub := P / (z0 * a0 + z1 * a1)
  let Tdew := P * (z0 / a0 + z1 / a1)
  let T := bisect (fun T => flashV a0 a1 T P z0 z1 - Vt) fuel Tbub Tdew
  flashTP a0 a1 T P st

/-- Modelled from the spec: ideal-mixing-rule mixture enthalpy of the phase
split (an external property functor of §2 of the spec): liquid contributes
`amount * cp_i * T`, gas additionally carries the heat of vaporization. -/
def mixtureH (cpl0 cpl1 hv0 hv1 : ℚ) (st : VLEState) : ℚ :=
  st.imol.l0 * cpl0 * st.thermal.T + st.imol.l1 * cpl1 * st.thermal.T +
    st.imol.g0 * (cpl0 * st.thermal.T + hv0) + st.imol.g1 * (cpl1 * st.thermal.T + hv1)

/-- Modelled from the spec: the `H, P` branch of `VLE.__call__` (§4.3
dispatch table: outer root-find on `T`, flashing at each candidate `(T, P)`
and matching the mixture enthalpy of the resulting split to the target). -/
def vle_H_P (a0 a1 cpl0 cpl1 hv0 hv1 : ℚ) (fuel : ℕ) (Ht P : ℚ) (st : VLEState) :
    Except EqError VLEState :=
  if a0 = 0 ∨ a1 = 0 ∨ P = 0 then .error .convergenceFailure else
  let tot := st.tot0 + st.tot1
  if tot = 0 ∨ z0lo a0 a1 st = 0 then .error .convergenceFailure else
  let z0 := st.tot0 / tot
  let z1 := st.tot1 / tot
  let Tbub := P / (z0 * a0 + z1 * a1)
  let Tdew := P * (z0 / a0 + z1 / a1)
  let residual := fun T =>
    match flashTP a0 a1 T P st with
    | .ok st2 => mixtureH cpl0 cpl1 hv0 hv1 st2 - Ht
    | .error _ => 0
  let T := bisect residual fuel Tbub Tdew
  flashTP a0 a1 T P st

/-- Degrees-of-freedom specification of a `VLE.__call__` invocation: each of
the six recognized options may be supplied or omitted (§4.3 and §6 of the
spec; the tutorial lists `T`, `P`, `V`, `H`, `x`, `y`). -/
structure VLESpec where
  T : Option ℚ
  P : Option ℚ
  V : Option ℚ
  H : Option ℚ
  x : Option (ℚ × ℚ)
  y : Option (ℚ × ℚ)
deriving DecidableEq

/-- Number of degrees of freedom supplied by a specification. -/
def VLESpec.count (s : VLESpec) : ℕ :=
  [s.T.isSome, s.P.isSome, s.V.isSome, s.H.isSome, s.x.isSome, s.y.isSome].count true

/-- Folds a branch result back into a call result: on success the new state
is committed, on failure the prior state is left untouched (§7 of the spec:
solvers never leave the state partially overwritten on failure). -/
def commit (r : Except EqError VLEState) (st : VLEState) : Option EqError × VLEState :=
  match r with
  | .ok st2 => (none, st2)
  | .error e => (some e, st)

/-- Modelled from the spec: `VLE.__call__` entry point (§4.3 and §6 of the
spec): validate that exactly two recognized degrees of freedom are supplied,
then dispatch to the matching branch; zero, one, three or more options, or
an incompatible pair, is a configuration error raised before any state is
touched. -/
def vleCall (a0 a1 cpl0 cpl1 hv0 hv1 : ℚ) (fuel : ℕ) (s : VLESpec) (st : VLEState) :
    Option EqError × VLEState :=
  if s.count ≠ 2 then (some .configuration, st) else
  match s.T, s.P, s.V, s.H, s.x, s.y with
  | some T, some P, none, none, none, none => commit (flashTP a0 a1 T P st) st
  | some T, none, some V, none, none, none => commit (vle_T_V a0 a1 fuel T V st) st
  | none, some P, some V, none, none, none => commit (vle_P_V a0 a1 fuel P V st) st
  | none, some P, none, some H, none, none =>
      commit (vle_H_P a0 a1 cpl0 cpl1 hv0 hv1 fuel H P st) st
  | none, some P, none, none, some xv, none => commit (vle_x_P a0 a1 xv.1 xv.2 P st) st
  | some T, none, none, none, none, some yv => commit (vle_y_T a0 a1 yv.1 yv.2 T st) st
  | _, _, _, _, _, _ => (some .configuration, st)

/-- Ties a fugacity-coefficient model to the gas-fugacity computation:
`GasFugacities.__call__` evaluates `φ(y, T, P)` and multiplies through
(§4.1 of the spec). -/
def GasFugacitiesCall (m : FugacityCoeffModel) (y : List ℚ) (T P : ℚ) : List ℚ :=
  gas_fugacity y (m.evaluate y T P) P

/-- Modelled from the spec: a simple one-parameter Margules-type activity
coefficient `γ = 1 + A (1 - x)^2`, standing in for the external
group-contribution activity models that the spec treats as black boxes. -/
def margulesGamma (A xi : ℚ) : ℚ := 1 + A * (1 - xi) ^ 2

/-- Modelled from the spec and the 0.22.5 change log:
`activity_coefficients` evaluation.  Chemicals with missing functional-group
model data (a `none` entry) default to an activity coefficient of 1 and a
`RuntimeWarning` is issued (the returned flag); present data evaluates the
Margules model.  Since 0.22.5 no error is raised for missing data. -/
def activity_coefficients (data : List (Option ℚ)) (x : List ℚ) : List ℚ × Bool :=
  (List.zipWith (fun d xi =>
      match d with
      | none => 1
      | some Ai => margulesGamma Ai xi) data x,
   data.any (fun d => d.isNone))

/-- Per-component activity coefficients of a liquid phase given its
per-component amounts: compositions are the normalized amounts. -/
def phaseGammas (A p : List ℚ) : List ℚ :=
  List.zipWith (fun Ai pi => margulesGamma Ai (pi / p.sum)) A p

/-- Modelled from the spec: one successive-substitution sweep of the
LLE solver (§4.4 of the spec): evaluate γ for each phase composition, update
each component's phase-1 split fraction from the equal-fugacity condition
`x1_i γ1_i = x2_i γ2_i`, which at phase totals `s1`, `s2` gives
`f_i = γ2_i s1 / (γ2_i s1 + γ1_i s2)`. -/
def lleUpdate (A tot f : List ℚ) : List ℚ :=
  let p1 := mulLists tot f
  let p2 := mulLists tot (f.map (fun fi => 1 - fi))
  let s1 := p1.sum
  let s2 := p2.sum
  let g1 := phaseGammas A p1
  let g2 := phaseGammas A p2
  List.zipWith (fun g1i g2i => g2i * s1 / (g2i * s1 + g1i * s2)) g1 g2

/-- Iterates the LLE successive substitution for the given iteration
budget (§5 of the spec: exceeding the budget terminates the loop with its
last iterate). -/
def lleIterate (A tot : List ℚ) : ℕ → List ℚ → List ℚ
  | 0, f => f
  | n + 1, f => lleIterate A tot n (lleUpdate A tot f)

/-- The running state of an `LLE` object: amounts of the two liquid phases
plus the thermal condition. -/
structure LLEState where
  phase1 : List ℚ
  phase2 : List ℚ
  thermal : ThermalCondition
deriving DecidableEq

/-- Modelled from the spec: `LLE.__call__` (§4.4 of the spec; the tutorial
notes that pressure is not a significant factor, so only the temperature is
taken).  Initializes an equal trial split, iterates the successive
substitution, redistributes the total amounts between the two liquid phases
and writes the temperature into the thermal condition; the pressure is left
at its prior value. -/
def lleCall (A : List ℚ) (fuel : ℕ) (T : ℚ) (st : LLEState) : LLEState :=
  let tot := List.zipWith (· + ·) st.phase1 st.phase2
  let f := lleIterate A tot fuel (tot.map (fun _ => (1 : ℚ) / 2))
  { phase1 := mulLists tot f
    phase2 := mulLists tot (f.map (fun fi => 1 - fi))
    thermal := { T := T, P := st.thermal.P } }

/-- Per-component liquid-phase fugacity terms of an LLE phase given its
amounts: `x_i γ_i` with the composition normalized from the amounts (the
pure-component factor common to both liquid phases cancels, leaving the
spec's equal-fugacity condition `x1_i γ1_i = x2_i γ2_i`). -/
def liquidPhaseFugacities (A p : List ℚ) : List ℚ :=
  mulLists (p.map (fun pi => pi / p.sum)) (phaseGammas A p)

end Thermosteam

namespace Thermosteam

theorem mulLists_map_one (y : List ℚ) (P : ℚ) :
    (mulLists y (y.map fun _ => 1)).map (fun v => v * P) = y.map (fun yi => yi * P) := by
  induction y with
  | nil => rfl
  | cons a as ih => simp [mulLists] at ih ⊢; simpa using ih

/-- C4: gas fugacity is the per-component vector `y_i * φ_i(y,T,P) * P`; with the
ideal fugacity-coefficient model it is exactly `y_i * P`, and at
`y = [0.43, 0.57]`, `P = 101325` it is `[43569.75, 57755.25]`. -/
theorem c4_gas_fugacity :
    (∀ (m : FugacityCoeffModel) (y : List ℚ) (T P : ℚ),
      GasFugacitiesCall m y T P =
        List.zipWith (fun yi phii => yi * phii * P) y (m.evaluate y T P)) ∧
    (∀ (y : List ℚ) (T P : ℚ),
      GasFugacitiesCall .idealPhi y T P = y.map (fun yi => yi * P)) ∧
    GasFugacitiesCall .idealPhi [43/100, 57/100] 355 101325 = [4356975/100, 5775525/100] := by
  refine ⟨?_, ?_, ?_⟩
  · intro m y T P
    simp [GasFugacitiesCall, gas_fugacity, mulLists, List.map_zipWith]
  · intro y T P
    simp only [GasFugacitiesCall, gas_fugacity, FugacityCoeffModel.evaluate]
    exact mulLists_map_one y P
  · norm_num [GasFugacitiesCall, gas_fugacity, mulLists, FugacityCoeffModel.evaluate]

/-- C5: the bubble-point solver at fixed `T` returns
`P = Σ x_i γ_i Psat_i Poynting_i` and `y_i = x_i γ_i Psat_i Poynting_i / (φ_i P)`;
in the ideal two-component reference case with `Psat = [50000, 80000]`,
`z = [1/2, 1/2]` it returns `P = 65000` and `y = [5/13, 8/13] ≈ [0.3846, 0.6154]`. -/
theorem c5_bubble_point :
    (∀ x0 x1 g0 g1 p0 p1 c0 c1 f0 f1 : ℚ,
      bubblePointP [x0, x1] [g0, g1] [p0, p1] [c0, c1] [f0, f1] =
        (x0 * g0 * p0 * c0 + x1 * g1 * p1 * c1,
         [x0 * g0 * p0 * c0 / (f0 * (x0 * g0 * p0 * c0 + x1 * g1 * p1 * c1)),
          x1 * g1 * p1 * c1 / (f1 * (x0 * g0 * p0 * c0 + x1 * g1 * p1 * c1))])) ∧
    bubblePointP [1/2, 1/2] [1, 1] [50000, 80000] [1, 1] [1, 1] = (65000, [5/13, 8/13]) ∧
    |(5 : ℚ)/13 - 3846/10000| < 1/1000 ∧ |(8 : ℚ)/13 - 6154/10000| < 1/1000 := by
  refine ⟨?_, ?_, ?_, ?_⟩
  · intro x0 x1 g0 g1 p0 p1 c0 c1 f0 f1
    simp [bubblePointP, liquid_fugacity, mulLists]
  · norm_num [bubblePointP, liquid_fugacity, mulLists]
  · rw [abs_sub_lt_iff]; constructor <;> norm_num
  · rw [abs_sub_lt_iff]; constructor <;> norm_num

/-- C6: calling the VLE solver with a number of specified degrees of freedom
other than exactly two recognized options raises a `ConfigurationError` and
leaves the material indexer and thermal condition unmodified. -/
theorem c6_configuration_error (a0 a1 cpl0 cpl1 hv0 hv1 : ℚ) (fuel : ℕ)
    (s : VLESpec) (st : VLEState) (h : s.count ≠ 2) :
    vleCall a0 a1 cpl0 cpl1 hv0 hv1 fuel s st = (some .configuration, st) := by
  simp only [vleCall]
  rw [if_pos h]

/-- Witness for C6: three degrees of freedom (`T`, `P`, and `V` all given)
raise a `ConfigurationError` without mutating state. -/
theorem c6_witness :
    vleCall 1 2 1 1 100 100 0 ⟨some 350, some 101325, some (1/2), none, none, none⟩
        ⟨⟨1, 1, 1, 1⟩, ⟨298, 101325⟩⟩ =
      (some .configuration, ⟨⟨1, 1, 1, 1⟩, ⟨298, 101325⟩⟩) :=
  c6_configuration_error 1 2 1 1 100 100 0 _ _ (by simp [VLESpec.count])

/-- Counterexample for C7: a chemical with missing functional-group model
data (the `none` entry) gets its activity coefficient silently defaulted to
1 (with the warning flag), instead of any error being propagated. -/
theorem c7_counterexample :
    activity_coefficients [none, some 2] [1/2, 1/2] = ([1, 3/2], true) := by
  norm_num [activity_coefficients, margulesGamma]

/-- C7 as amended: a missing functional-group model defaults the activity
coefficient to 1 and issues a `RuntimeWarning` (the boolean flag), while
present model data is evaluated; no `ModelEvaluationError` is raised
(0.22.5 change log). -/
theorem c7_amended_default_gamma_warning :
    (∀ (ds : List (Option ℚ)) (xs : List ℚ) (xi : ℚ),
      (activity_coefficients (none :: ds) (xi :: xs)).1 =
        1 :: (activity_coefficients ds xs).1) ∧
    (∀ (ds : List (Option ℚ)) (xs : List ℚ) (xi A : ℚ),
      (activity_coefficients (some A :: ds) (xi :: xs)).1 =
        margulesGamma A xi :: (activity_coefficients ds xs).1) ∧
    (∀ (ds : List (Option ℚ)) (xs : List ℚ),
      (activity_coefficients ds xs).2 = ds.any (fun d => d.isNone)) := by
  refine ⟨?_, ?_, ?_⟩ <;> intros <;> simp [activity_coefficients]

/-- C9: a default-constructed `Thermo` package selects the Dortmund activity
model with ideal fugacity-coefficient and Poynting models, and an
ideal-mixing-rule mixture without excess energies; hence the correction
factors are non-ideal only in γ. -/
theorem c9_thermo_defaults :
    Thermo.make none none none none =
      { Gamma := .dortmund, Phi := .idealPhi, PCF := .idealPCF,
        mixture := { rule := .ideal, include_excess_energies := false } } ∧
    (Thermo.make none none none none).Gamma ≠ ActivityModel.idealActivity ∧
    (∀ (y : List ℚ) (T P : ℚ),
      (Thermo.make none none none none).Phi.evaluate y T P = y.map (fun _ => 1)) ∧
    (∀ (x : List ℚ) (T P : ℚ),
      (Thermo.make none none none none).PCF.evaluate x T P = x.map (fun _ => 1)) := by
  refine ⟨rfl, by simp [Thermo.make], ?_, ?_⟩ <;> intros <;> rfl

/-- C10: an LLE solve takes only a temperature; it writes the temperature
and the redistributed phase amounts but leaves the pressure unchanged at its
prior value. -/
theorem c10_lle_pressure_frame (A : List ℚ) (fuel : ℕ) (T : ℚ) (st : LLEState) :
    (lleCall A fuel T st).thermal.P = st.thermal.P ∧ (lleCall A fuel T st).thermal.T = T := by
  constructor <;> rfl

end Thermosteam

namespace Thermosteam

/-- Counterexample for C1: the infeasible liquid composition of the tutorial
(`vle(x=[0.2, 0.8], P=101325)` on the water-ethanol system, executed there
with no error) silently produces a committed result in the embedded model as
well — here even one with a negative vapor amount — instead of reporting an
infeasible-specification error or convergence failure. -/
theorem c1_counterexample :
    vle_x_P 1 2 (1/5) (4/5) 101325 ⟨⟨1/2, 1/2, 1/2, 1/2⟩, ⟨360, 128136⟩⟩ =
      .ok ⟨⟨-(3/4), -6, 7/4, 7⟩, ⟨168875/3, 128136⟩⟩ ∧ (-(3/4) : ℚ) < 0 := by
  norm_num [vle_x_P, VLEState.tot0, VLEState.tot1]

/-- C1 as amended: the composition-specified VLE branch performs no
feasibility check at all — whenever its arithmetic guards hold (nonzero
volatility denominator, pressure and feed, conjugate composition distinct
from the specified one) it commits a result, feasible or not. -/
theorem c1_amended_silent_result (a0 a1 x0 x1 P : ℚ) (st : VLEState)
    (hd : x0 * a0 + x1 * a1 ≠ 0) (hP : P ≠ 0)
    (ht : st.tot0 + st.tot1 ≠ 0)
    (hy : x0 * a0 / (x0 * a0 + x1 * a1) ≠ x0) :
    ∃ st2, vle_x_P a0 a1 x0 x1 P st = .ok st2 := by
  have hy0 : x0 * a0 * (P / (x0 * a0 + x1 * a1)) / P = x0 * a0 / (x0 * a0 + x1 * a1) := by
    field_simp
    ring
  simp only [vle_x_P]
  rw [if_neg (by push_neg; exact ⟨hd, hP⟩), if_neg (by push_neg; refine ⟨ht, ?_⟩; rw [hy0]; exact hy)]
  exact ⟨_, rfl⟩

/-- Witness for C1's amended theorem at the tutorial's infeasible input. -/
theorem c1_amended_witness :
    ∃ st2, vle_x_P 1 2 (1/5) (4/5) 101325 ⟨⟨1/2, 1/2, 1/2, 1/2⟩, ⟨360, 128136⟩⟩ = .ok st2 :=
  c1_amended_silent_result 1 2 (1/5) (4/5) 101325 ⟨⟨1/2, 1/2, 1/2, 1/2⟩, ⟨360, 128136⟩⟩
    (by norm_num) (by norm_num) (by norm_num [VLEState.tot0, VLEState.tot1]) (by norm_num)

/-- Counterexample for C2: after the composition-pressure call
`vle(x=[0.8, 0.2], P=101325)` the thermal condition keeps its prior pressure
128136 Pa — the caller-specified 101325 Pa is not stored (tutorial cell:
`ThermalCondition(T=356.25, P=128136)` after specifying `P=101325`). -/
theorem c2_counterexample :
    vle_x_P 1 2 (4/5) (1/5) 101325 ⟨⟨3/4, 1/4, 3/4, 1/4⟩, ⟨360, 128136⟩⟩ =
      .ok ⟨⟨1/2, 1/4, 1, 1/4⟩, ⟨168875/2, 128136⟩⟩ ∧ (128136 : ℚ) ≠ 101325 := by
  norm_num [vle_x_P, VLEState.tot0, VLEState.tot1]

/-- C2 as amended: the composition-specified branches delegate to the
bubble/dew solver and write back only the resolved conjugate scalar — the
resolved `T` for an `x, P` call and the resolved `P` for a `y, T` call —
while the caller-specified scalar is not stored: the thermal condition
retains its prior value for it. -/
theorem c2_amended_resolved_scalar_only (a0 a1 x0 x1 P y0 y1 T : ℚ)
    (stA stB st2 st3 : VLEState)
    (h2 : vle_x_P a0 a1 x0 x1 P stA = .ok st2)
    (h3 : vle_y_T a0 a1 y0 y1 T stB = .ok st3) :
    st2.thermal.P = stA.thermal.P ∧ st2.thermal.T = P / (x0 * a0 + x1 * a1) ∧
    st3.thermal.T = stB.thermal.T ∧ st3.thermal.P = 1 / (y0 / (a0 * T) + y1 / (a1 * T)) := by
  simp only [vle_x_P] at h2
  simp only [vle_y_T] at h3
  split_ifs at h2
  split_ifs at h3
  cases h2
  cases h3
  exact ⟨rfl, rfl, rfl, rfl⟩

/-- Witness for C2's amended theorem: a concrete `x, P` call keeps the prior
pressure and stores the resolved bubble temperature; a concrete `y, T` call
keeps the prior temperature and stores the resolved dew pressure. -/
theorem c2_amended_witness :
    ((⟨⟨1/2, 1/4, 1, 1/4⟩, ⟨168875/2, 128136⟩⟩ : VLEState).thermal.P =
        (⟨⟨3/4, 1/4, 3/4, 1/4⟩, ⟨360, 128136⟩⟩ : VLEState).thermal.P) ∧
    ((⟨⟨1/2, 1/4, 1, 1/4⟩, ⟨168875/2, 128136⟩⟩ : VLEState).thermal.T =
        101325 / ((4:ℚ)/5 * 1 + 1/5 * 2)) ∧
    ((⟨⟨1/3, 1/2, 2/3, 1/2⟩, ⟨360, 500⟩⟩ : VLEState).thermal.T =
        (⟨⟨1/2, 1/2, 1/2, 1/2⟩, ⟨360, 128136⟩⟩ : VLEState).thermal.T) ∧
    ((⟨⟨1/3, 1/2, 2/3, 1/2⟩, ⟨360, 500⟩⟩ : VLEState).thermal.P =
        1 / ((2:ℚ)/5 / (1 * 350) + 3/5 / (2 * 350))) :=
  c2_amended_resolved_scalar_only 1 2 (4/5) (1/5) 101325 (2/5) (3/5) 350
    ⟨⟨3/4, 1/4, 3/4, 1/4⟩, ⟨360, 128136⟩⟩ ⟨⟨1/2, 1/2, 1/2, 1/2⟩, ⟨360, 128136⟩⟩ _ _
    (by norm_num [vle_x_P, VLEState.tot0, VLEState.tot1])
    (by norm_num [vle_y_T, VLEState.tot0, VLEState.tot1])

end Thermosteam

namespace Thermosteam

theorem conserve_scalar (tot z V K : ℚ) (htot : tot ≠ 0) (hd : 1 + V * (K - 1) ≠ 0) :
    tot * V * (K * (z / tot / (1 + V * (K - 1)))) + tot * (1 - V) * (z / tot / (1 + V * (K - 1))) = z := by
  field_simp
  ring

theorem flashTP_conserves (a0 a1 T P : ℚ) (st st2 : VLEState)
    (h : flashTP a0 a1 T P st = .ok st2) :
    st2.tot0 = st.tot0 ∧ st2.tot1 = st.tot1 := by
  simp only [flashTP] at h
  split_ifs at h with h1 h2 h3
  push_neg at h1 h2 h3
  set V := rachfordRiceV (a0 * T / P) (a1 * T / P)
      (st.tot0 / (st.tot0 + st.tot1)) (st.tot1 / (st.tot0 + st.tot1)) with hV
  obtain ⟨hT, hP⟩ := h1
  obtain ⟨htot, hK0, hK1⟩ := h2
  obtain ⟨hd0, hd1⟩ := h3
  cases h
  exact ⟨conserve_scalar (st.tot0 + st.tot1) st.tot0 V (a0 * T / P) htot hd0,
         conserve_scalar (st.tot0 + st.tot1) st.tot1 V (a1 * T / P) htot hd1⟩

end Thermosteam

namespace Thermosteam

theorem lever_scalar0 (tot z x y : ℚ) (htot : tot ≠ 0) (hyx : y ≠ x) :
    tot * ((z / tot - x) / (y - x)) * y + tot * (1 - (z / tot - x) / (y - x)) * x = z := by
  have h : y - x ≠ 0 := sub_ne_zero.mpr hyx
  field_simp
  ring

theorem lever_scalar1 (tot z z1 x y x1 y1 : ℚ) (htot : tot ≠ 0) (hyx : y ≠ x)
    (hx1 : x + x1 = 1) (hy1 : y + y1 = 1) (hz : tot = z + z1) :
    tot * ((z / tot - x) / (y - x)) * y1 + tot * (1 - (z / tot - x) / (y - x)) * x1 = z1 := by
  have h : y - x ≠ 0 := sub_ne_zero.mpr hyx
  have hx1e : x1 = 1 - x := by linarith
  have hy1e : y1 = 1 - y := by linarith
  have hz1e : z1 = tot - z := by linarith
  subst hx1e hy1e hz1e
  field_simp
  ring

theorem vle_x_P_conserves (a0 a1 x0 x1 P : ℚ) (st st2 : VLEState) (hx : x0 + x1 = 1)
    (h : vle_x_P a0 a1 x0 x1 P st = .ok st2) :
    st2.tot0 = st.tot0 ∧ st2.tot1 = st.tot1 := by
  simp only [vle_x_P] at h
  split_ifs at h with h1 h2
  push_neg at h1 h2
  obtain ⟨hd, hP⟩ := h1
  obtain ⟨htot, hyx⟩ := h2
  have hy1 : x0 * a0 * (P / (x0 * a0 + x1 * a1)) / P +
      x1 * a1 * (P / (x0 * a0 + x1 * a1)) / P = 1 := by
    field_simp
    ring
  cases h
  exact ⟨lever_scalar0 (st.tot0 + st.tot1) st.tot0 x0
           (x0 * a0 * (P / (x0 * a0 + x1 * a1)) / P) htot hyx,
         lever_scalar1 (st.tot0 + st.tot1) st.tot0 st.tot1 x0
           (x0 * a0 * (P / (x0 * a0 + x1 * a1)) / P) x1
           (x1 * a1 * (P / (x0 * a0 + x1 * a1)) / P) htot hyx hx hy1 rfl⟩

theorem vle_y_T_conserves (a0 a1 y0 y1 T : ℚ) (st st2 : VLEState) (hy : y0 + y1 = 1)
    (h : vle_y_T a0 a1 y0 y1 T st = .ok st2) :
    st2.tot0 = st.tot0 ∧ st2.tot1 = st.tot1 := by
  simp only [vle_y_T] at h
  split_ifs at h with h1 h2 h3
  push_neg at h1 h2 h3
  obtain ⟨ha0, ha1, hT⟩ := h1
  obtain ⟨htot, hyx⟩ := h3
  set s := y0 / (a0 * T) + y1 / (a1 * T) with hs
  have hx1 : y0 * (1 / s) / (a0 * T) + y1 * (1 / s) / (a1 * T) = 1 := by
    have key : y0 * (1 / s) / (a0 * T) + y1 * (1 / s) / (a1 * T) =
        (y0 / (a0 * T) + y1 / (a1 * T)) * (1 / s) := by ring
    rw [key, ← hs]
    field_simp
  cases h
  exact ⟨lever_scalar0 (st.tot0 + st.tot1) st.tot0
           (y0 * (1 / s) / (a0 * T)) y0 htot hyx,
         lever_scalar1 (st.tot0 + st.tot1) st.tot0 st.tot1
           (y0 * (1 / s) / (a0 * T)) y0
           (y1 * (1 / s) / (a1 * T)) y1 htot hyx hx1 hy rfl⟩

end Thermosteam

namespace Thermosteam

theorem vle_T_V_conserves (a0 a1 : ℚ) (fuel : ℕ) (T Vt : ℚ) (st st2 : VLEState)
    (h : vle_T_V a0 a1 fuel T Vt st = .ok st2) :
    st2.tot0 = st.tot0 ∧ st2.tot1 = st.tot1 := by
  simp only [vle_T_V] at h
  split_ifs at h
  exact flashTP_conserves _ _ _ _ _ _ h

theorem vle_P_V_conserves (a0 a1 : ℚ) (fuel : ℕ) (P Vt : ℚ) (st st2 : VLEState)
    (h : vle_P_V a0 a1 fuel P Vt st = .ok st2) :
    st2.tot0 = st.tot0 ∧ st2.tot1 = st.tot1 := by
  simp only [vle_P_V] at h
  split_ifs at h
  exact flashTP_conserves _ _ _ _ _ _ h

theorem vle_H_P_conserves (a0 a1 cpl0 cpl1 hv0 hv1 : ℚ) (fuel : ℕ) (Ht P : ℚ)
    (st st2 : VLEState) (h : vle_H_P a0 a1 cpl0 cpl1 hv0 hv1 fuel Ht P st = .ok st2) :
    st2.tot0 = st.tot0 ∧ st2.tot1 = st.tot1 := by
  simp only [vle_H_P] at h
  split_ifs at h
  exact flashTP_conserves _ _ _ _ _ _ h

theorem lleUpdate_length (A tot f : List ℚ) (hA : A.length = tot.length)
    (hf : f.length = tot.length) : (lleUpdate A tot f).length = tot.length := by
  simp [lleUpdate, phaseGammas, mulLists, List.length_zipWith, hA, hf]

theorem lleIterate_length (A tot : List ℚ) (fuel : ℕ) (f : List ℚ)
    (hA : A.length = tot.length) (hf : f.length = tot.length) :
    (lleIterate A tot fuel f).length = tot.length := by
  induction fuel generalizing f with
  | zero => simpa [lleIterate] using hf
  | succ n ih => simp only [lleIterate]; exact ih _ (lleUpdate_length A tot f hA hf)

theorem lle_split_conserves (tot f : List ℚ) (hf : f.length = tot.length) :
    List.zipWith (· + ·) (mulLists tot f) (mulLists tot (f.map (fun fi => 1 - fi))) = tot := by
  induction tot generalizing f with
  | nil => simp [mulLists]
  | cons t ts ih =>
    cases f with
    | nil => simp at hf
    | cons a as =>
      simp only [mulLists, List.map_cons, List.zipWith_cons_cons] at *
      rw [ih as (by simpa using hf)]
      congr 1
      ring

theorem lleCall_conserves (A : List ℚ) (fuel : ℕ) (T : ℚ) (st : LLEState)
    (hA : A.length = st.phase1.length) (hp : st.phase2.length = st.phase1.length) :
    List.zipWith (· + ·) (lleCall A fuel T st).phase1 (lleCall A fuel T st).phase2 =
      List.zipWith (· + ·) st.phase1 st.phase2 := by
  have htl : (List.zipWith (· + ·) st.phase1 st.phase2).length = st.phase1.length := by
    simp [List.length_zipWith, hp]
  simp only [lleCall]
  exact lle_split_conserves _ _
    (lleIterate_length _ _ _ _ (by rw [hA, htl]) (by simp [htl]))

end Thermosteam

namespace Thermosteam

/-- C3: every successful VLE solve (all six dispatch branches) and every LLE
solve conserves the total amount of each component across its configured
phases — here proved as exact equality over `ℚ`, which is stronger than the
claimed 1e-9 relative tolerance. -/
theorem c3_mass_conservation
    (a0 a1 cpl0 cpl1 hv0 hv1 T P Vt Ht x0 x1 y0 y1 Tl : ℚ) (fuel : ℕ)
    (st : VLEState) (A : List ℚ) (lst : LLEState)
    (hx : x0 + x1 = 1) (hy : y0 + y1 = 1)
    (hA : A.length = lst.phase1.length) (hp : lst.phase2.length = lst.phase1.length) :
    (∀ st2, flashTP a0 a1 T P st = .ok st2 →
      st2.tot0 = st.tot0 ∧ st2.tot1 = st.tot1) ∧
    (∀ st2, vle_T_V a0 a1 fuel T Vt st = .ok st2 →
      st2.tot0 = st.tot0 ∧ st2.tot1 = st.tot1) ∧
    (∀ st2, vle_P_V a0 a1 fuel P Vt st = .ok st2 →
      st2.tot0 = st.tot0 ∧ st2.tot1 = st.tot1) ∧
    (∀ st2, vle_H_P a0 a1 cpl0 cpl1 hv0 hv1 fuel Ht P st = .ok st2 →
      st2.tot0 = st.tot0 ∧ st2.tot1 = st.tot1) ∧
    (∀ st2, vle_x_P a0 a1 x0 x1 P st = .ok st2 →
      st2.tot0 = st.tot0 ∧ st2.tot1 = st.tot1) ∧
    (∀ st2, vle_y_T a0 a1 y0 y1 T st = .ok st2 →
      st2.tot0 = st.tot0 ∧ st2.tot1 = st.tot1) ∧
    List.zipWith (· + ·) (lleCall A fuel Tl lst).phase1 (lleCall A fuel Tl lst).phase2 =
      List.zipWith (· + ·) lst.phase1 lst.phase2 :=
  ⟨fun st2 => flashTP_conserves a0 a1 T P st st2,
   fun st2 => vle_T_V_conserves a0 a1 fuel T Vt st st2,
   fun st2 => vle_P_V_conserves a0 a1 fuel P Vt st st2,
   fun st2 => vle_H_P_conserves a0 a1 cpl0 cpl1 hv0 hv1 fuel Ht P st st2,
   fun st2 => vle_x_P_conserves a0 a1 x0 x1 P st st2 hx,
   fun st2 => vle_y_T_conserves a0 a1 y0 y1 T st st2 hy,
   lleCall_conserves A fuel Tl lst hA hp⟩

/-- Witness for C3: a concrete two-phase flash at `(T, P) = (350, 500)` and
a concrete LLE solve both leave the per-component totals unchanged. -/
theorem c3_witness :
    ((⟨⟨1/3, 1/2, 2/3, 1/2⟩, ⟨350, 500⟩⟩ : VLEState).tot0 =
       (⟨⟨1/2, 1/2, 1/2, 1/2⟩, ⟨298, 101325⟩⟩ : VLEState).tot0 ∧
     (⟨⟨1/3, 1/2, 2/3, 1/2⟩, ⟨350, 500⟩⟩ : VLEState).tot1 =
       (⟨⟨1/2, 1/2, 1/2, 1/2⟩, ⟨298, 101325⟩⟩ : VLEState).tot1) ∧
    List.zipWith (· + ·) (lleCall [1, 1] 2 360 ⟨[1, 0], [0, 1], ⟨298, 101325⟩⟩).phase1
        (lleCall [1, 1] 2 360 ⟨[1, 0], [0, 1], ⟨298, 101325⟩⟩).phase2 =
      List.zipWith (· + ·) [1, 0] [0, 1] := by
  have h := c3_mass_conservation 1 2 1 1 100 100 350 500 (1/2) 0 (1/2) (1/2) (1/2) (1/2) 360 2
      ⟨⟨1/2, 1/2, 1/2, 1/2⟩, ⟨298, 101325⟩⟩ [1, 1] ⟨[1, 0], [0, 1], ⟨298, 101325⟩⟩
      (by norm_num) (by norm_num) (by simp) (by simp)
  exact ⟨h.1 ⟨⟨1/3, 1/2, 2/3, 1/2⟩, ⟨350, 500⟩⟩
      (by norm_num [flashTP, rachfordRiceV, VLEState.tot0, VLEState.tot1]),
    h.2.2.2.2.2.2⟩

end Thermosteam

namespace Thermosteam

theorem bubble_fug_eq (x0 x1 g0 g1 p0 p1 c0 c1 f0 f1 : ℚ)
    (hf0 : f0 ≠ 0) (hf1 : f1 ≠ 0) (hP : x0*g0*p0*c0 + x1*g1*p1*c1 ≠ 0) :
    gas_fugacity (bubblePointP [x0, x1] [g0, g1] [p0, p1] [c0, c1] [f0, f1]).2 [f0, f1]
        (bubblePointP [x0, x1] [g0, g1] [p0, p1] [c0, c1] [f0, f1]).1 =
      liquid_fugacity [x0, x1] [g0, g1] [p0, p1] [c0, c1] := by
  simp only [bubblePointP, liquid_fugacity, gas_fugacity, mulLists, List.zipWith_cons_cons,
    List.zipWith_nil_right, List.map_cons, List.map_nil, List.sum_cons, List.sum_nil, add_zero]
  simp only [List.cons.injEq, and_true]
  constructor <;> (field_simp; ring)

theorem dew_fug_eq (y0 y1 g0 g1 p0 p1 c0 c1 f0 f1 : ℚ)
    (hg0 : g0*p0*c0 ≠ 0) (hg1 : g1*p1*c1 ≠ 0) :
    liquid_fugacity (dewPointP [y0, y1] [g0, g1] [p0, p1] [c0, c1] [f0, f1]).2
        [g0, g1] [p0, p1] [c0, c1] =
      gas_fugacity [y0, y1] [f0, f1]
        (dewPointP [y0, y1] [g0, g1] [p0, p1] [c0, c1] [f0, f1]).1 := by
  simp only [dewPointP, liquid_fugacity, gas_fugacity, mulLists, List.zipWith_cons_cons,
    List.zipWith_nil_right, List.map_cons, List.map_nil, List.sum_cons, List.sum_nil, add_zero,
    one_mul]
  simp only [List.cons.injEq, and_true]
  generalize (1 / (y0 * f0 / (g0 * p0 * c0) + y1 * f1 / (g1 * p1 * c1)) : ℚ) = Q
  constructor <;> (field_simp; ring)

end Thermosteam

namespace Thermosteam

theorem rr_sum_eq (z0 z1 K0 K1 : ℚ) (hz : z0 + z1 = 1) (hK0 : K0 ≠ 1) (hK1 : K1 ≠ 1)
    (hd0 : 1 + rachfordRiceV K0 K1 z0 z1 * (K0 - 1) ≠ 0)
    (hd1 : 1 + rachfordRiceV K0 K1 z0 z1 * (K1 - 1) ≠ 0) :
    z0 / (1 + rachfordRiceV K0 K1 z0 z1 * (K0 - 1)) +
      z1 / (1 + rachfordRiceV K0 K1 z0 z1 * (K1 - 1)) =
    K0 * (z0 / (1 + rachfordRiceV K0 K1 z0 z1 * (K0 - 1))) +
      K1 * (z1 / (1 + rachfordRiceV K0 K1 z0 z1 * (K1 - 1))) := by
  have hK0' : K0 - 1 ≠ 0 := sub_ne_zero.mpr hK0
  have hK1' : K1 - 1 ≠ 0 := sub_ne_zero.mpr hK1
  set V := rachfordRiceV K0 K1 z0 z1 with hV
  have hVeq : V * ((K0 - 1) * (K1 - 1)) = -(z0 * (K0 - 1) + z1 * (K1 - 1)) := by
    rw [hV, rachfordRiceV]
    field_simp
  field_simp
  linear_combination (-(1 : ℚ)) * hVeq - V * (K0 - 1) * (K1 - 1) * hz

end Thermosteam

namespace Thermosteam

theorem flash_fug_eq (a0 a1 T P : ℚ) (st st2 : VLEState)
    (h : flashTP a0 a1 T P st = .ok st2)
    (hl : st2.imol.l0 + st2.imol.l1 ≠ 0) (hg : st2.imol.g0 + st2.imol.g1 ≠ 0) :
    st2.imol.l0 / (st2.imol.l0 + st2.imol.l1) * (a0 * T) =
      st2.imol.g0 / (st2.imol.g0 + st2.imol.g1) * P ∧
    st2.imol.l1 / (st2.imol.l0 + st2.imol.l1) * (a1 * T) =
      st2.imol.g1 / (st2.imol.g0 + st2.imol.g1) * P := by
  simp only [flashTP] at h
  split_ifs at h with h1 h2 h3
  push_neg at h1 h2 h3
  obtain ⟨hT, hP⟩ := h1
  obtain ⟨htot, hK0, hK1⟩ := h2
  obtain ⟨hd0, hd1⟩ := h3
  set V := rachfordRiceV (a0 * T / P) (a1 * T / P)
      (st.tot0 / (st.tot0 + st.tot1)) (st.tot1 / (st.tot0 + st.tot1)) with hV
  have hz : st.tot0 / (st.tot0 + st.tot1) + st.tot1 / (st.tot0 + st.tot1) = 1 := by
    field_simp
  have hsum := rr_sum_eq (st.tot0 / (st.tot0 + st.tot1)) (st.tot1 / (st.tot0 + st.tot1))
      (a0 * T / P) (a1 * T / P) hz hK0 hK1 (hV ▸ hd0) (hV ▸ hd1)
  rw [← hV] at hsum
  cases h
  simp only at hl hg ⊢
  set X0 := st.tot0 / (st.tot0 + st.tot1) / (1 + V * (a0 * T / P - 1)) with hX0
  set X1 := st.tot1 / (st.tot0 + st.tot1) / (1 + V * (a1 * T / P - 1)) with hX1
  set tot := st.tot0 + st.tot1 with htotdef
  have hlf : tot * ((1 - V) * (X0 + X1)) ≠ 0 := by
    rw [show tot * ((1 - V) * (X0 + X1)) = tot * (1 - V) * X0 + tot * (1 - V) * X1 from by ring]
    exact hl
  have hgf : tot * (V * (a0 * T / P * X0 + a1 * T / P * X1)) ≠ 0 := by
    rw [show tot * (V * (a0 * T / P * X0 + a1 * T / P * X1)) =
        tot * V * (a0 * T / P * X0) + tot * V * (a1 * T / P * X1) from by ring]
    exact hg
  have h1V : 1 - V ≠ 0 := fun he => hlf (by rw [he]; ring)
  have hVne : V ≠ 0 := fun he => hgf (by rw [he]; ring)
  have hS : X0 + X1 ≠ 0 := fun he => hlf (by rw [he]; ring)
  have hKS : a0 * T / P * X0 + a1 * T / P * X1 ≠ 0 := fun he => hgf (by rw [he]; ring)
  have hden_l : tot * (1 - V) * X0 + tot * (1 - V) * X1 = tot * (1 - V) * (X0 + X1) := by ring
  have hden_g : tot * V * (a0 * T / P * X0) + tot * V * (a1 * T / P * X1) =
      tot * V * (a0 * T / P * X0 + a1 * T / P * X1) := by ring
  have hsum2 : a0 * T / P * X0 + a1 * T / P * X1 = X0 + X1 := by
    rw [hX0, hX1]
    exact hsum.symm
  constructor
  · rw [hden_l, hden_g, hsum2]
    field_simp
    ring
  · rw [hden_l, hden_g, hsum2]
    field_simp
    ring

end Thermosteam

namespace Thermosteam

theorem lle_balance (t fi G1 G2 s1 s2 : ℚ) (hs1 : s1 ≠ 0) (hs2 : s2 ≠ 0)
    (hD : G2 * s1 + G1 * s2 ≠ 0) (hf : fi = G2 * s1 / (G2 * s1 + G1 * s2)) :
    t * fi / s1 * G1 = t * (1 - fi) / s2 * G2 := by
  subst hf
  field_simp
  ring

theorem lle_fixed_fug_eq (A0 A1 t0 t1 f0 f1 : ℚ)
    (hA0 : 0 ≤ A0) (hA1 : 0 ≤ A1) (ht0 : 0 < t0) (ht1 : 0 < t1)
    (hf0 : 0 < f0) (hf0u : f0 < 1) (hf1 : 0 < f1) (hf1u : f1 < 1)
    (hfix : lleUpdate [A0, A1] [t0, t1] [f0, f1] = [f0, f1]) :
    liquidPhaseFugacities [A0, A1] (mulLists [t0, t1] [f0, f1]) =
      liquidPhaseFugacities [A0, A1] (mulLists [t0, t1] ([f0, f1].map (fun fi => 1 - fi))) := by
  simp only [lleUpdate, liquidPhaseFugacities, phaseGammas, mulLists, List.zipWith_cons_cons,
    List.zipWith_nil_right, List.map_cons, List.map_nil, List.sum_cons, List.sum_nil, add_zero,
    List.cons.injEq, and_true] at hfix ⊢
  obtain ⟨hfix0, hfix1⟩ := hfix
  have hs1 : t0 * f0 + t1 * f1 ≠ 0 := by positivity
  have hs2 : t0 * (1 - f0) + t1 * (1 - f1) ≠ 0 := by
    have : 0 < t0 * (1 - f0) + t1 * (1 - f1) :=
      add_pos (mul_pos ht0 (by linarith)) (mul_pos ht1 (by linarith))
    exact ne_of_gt this
  have hG10 : 0 < margulesGamma A0 (t0 * f0 / (t0 * f0 + t1 * f1)) := by
    simp only [margulesGamma]; positivity
  have hG11 : 0 < margulesGamma A1 (t1 * f1 / (t0 * f0 + t1 * f1)) := by
    simp only [margulesGamma]; positivity
  have hG20 : 0 < margulesGamma A0 (t0 * (1 - f0) / (t0 * (1 - f0) + t1 * (1 - f1))) := by
    simp only [margulesGamma]; positivity
  have hG21 : 0 < margulesGamma A1 (t1 * (1 - f1) / (t0 * (1 - f0) + t1 * (1 - f1))) := by
    simp only [margulesGamma]; positivity
  have hs1p : 0 < t0 * f0 + t1 * f1 := by positivity
  have hs2p : 0 < t0 * (1 - f0) + t1 * (1 - f1) :=
    add_pos (mul_pos ht0 (by linarith)) (mul_pos ht1 (by linarith))
  constructor
  · exact lle_balance t0 f0 _ _ _ _ hs1 hs2
      (ne_of_gt (add_pos (mul_pos hG20 hs1p) (mul_pos hG10 hs2p))) hfix0.symm
  · exact lle_balance t1 f1 _ _ _ _ hs1 hs2
      (ne_of_gt (add_pos (mul_pos hG21 hs1p) (mul_pos hG11 hs2p))) hfix1.symm

end Thermosteam

namespace Thermosteam

/-- C8: at a converged bubble-point, dew-point, VLE-flash, or LLE
fixed-point result, the per-component fugacities of the two phases agree —
proved as exact equality over `ℚ`, stronger than the claimed 1e-6 relative
tolerance. -/
theorem c8_fugacity_equality
    (x0 x1 y0 y1 g0 g1 p0 p1 c0 c1 f0 f1 a0 a1 T P A0 A1 t0 t1 fl0 fl1 : ℚ)
    (st st2 : VLEState)
    (hf0 : f0 ≠ 0) (hf1 : f1 ≠ 0) (hPb : x0 * g0 * p0 * c0 + x1 * g1 * p1 * c1 ≠ 0)
    (hg0 : g0 * p0 * c0 ≠ 0) (hg1 : g1 * p1 * c1 ≠ 0)
    (hfl : flashTP a0 a1 T P st = .ok st2)
    (hl : st2.imol.l0 + st2.imol.l1 ≠ 0) (hgg : st2.imol.g0 + st2.imol.g1 ≠ 0)
    (hA0 : 0 ≤ A0) (hA1 : 0 ≤ A1) (ht0 : 0 < t0) (ht1 : 0 < t1)
    (hfl0 : 0 < fl0) (hfl0u : fl0 < 1) (hfl1 : 0 < fl1) (hfl1u : fl1 < 1)
    (hfix : lleUpdate [A0, A1] [t0, t1] [fl0, fl1] = [fl0, fl1]) :
    (gas_fugacity (bubblePointP [x0, x1] [g0, g1] [p0, p1] [c0, c1] [f0, f1]).2 [f0, f1]
        (bubblePointP [x0, x1] [g0, g1] [p0, p1] [c0, c1] [f0, f1]).1 =
      liquid_fugacity [x0, x1] [g0, g1] [p0, p1] [c0, c1]) ∧
    (liquid_fugacity (dewPointP [y0, y1] [g0, g1] [p0, p1] [c0, c1] [f0, f1]).2
        [g0, g1] [p0, p1] [c0, c1] =
      gas_fugacity [y0, y1] [f0, f1]
        (dewPointP [y0, y1] [g0, g1] [p0, p1] [c0, c1] [f0, f1]).1) ∧
    (st2.imol.l0 / (st2.imol.l0 + st2.imol.l1) * (a0 * T) =
        st2.imol.g0 / (st2.imol.g0 + st2.imol.g1) * P ∧
      st2.imol.l1 / (st2.imol.l0 + st2.imol.l1) * (a1 * T) =
        st2.imol.g1 / (st2.imol.g0 + st2.imol.g1) * P) ∧
    liquidPhaseFugacities [A0, A1] (mulLists [t0, t1] [fl0, fl1]) =
      liquidPhaseFugacities [A0, A1] (mulLists [t0, t1] ([fl0, fl1].map (fun fi => 1 - fi))) :=
  ⟨bubble_fug_eq x0 x1 g0 g1 p0 p1 c0 c1 f0 f1 hf0 hf1 hPb,
   dew_fug_eq y0 y1 g0 g1 p0 p1 c0 c1 f0 f1 hg0 hg1,
   flash_fug_eq a0 a1 T P st st2 hfl hl hgg,
   lle_fixed_fug_eq A0 A1 t0 t1 fl0 fl1 hA0 hA1 ht0 ht1 hfl0 hfl0u hfl1 hfl1u hfix⟩

/-- Witness for C8 at the ideal reference mixture, a concrete two-phase
flash, and a concrete symmetric LLE fixed point. -/
theorem c8_witness :
    (gas_fugacity (bubblePointP [1/2, 1/2] [1, 1] [50000, 80000] [1, 1] [1, 1]).2 [1, 1]
        (bubblePointP [1/2, 1/2] [1, 1] [50000, 80000] [1, 1] [1, 1]).1 =
      liquid_fugacity [1/2, 1/2] [1, 1] [50000, 80000] [1, 1]) ∧
    (liquid_fugacity (dewPointP [1/2, 1/2] [1, 1] [50000, 80000] [1, 1] [1, 1]).2
        [1, 1] [50000, 80000] [1, 1] =
      gas_fugacity [1/2, 1/2] [1, 1]
        (dewPointP [1/2, 1/2] [1, 1] [50000, 80000] [1, 1] [1, 1]).1) ∧
    ((⟨⟨1/3, 1/2, 2/3, 1/2⟩, ⟨350, 500⟩⟩ : VLEState).imol.l0 /
          ((⟨⟨1/3, 1/2, 2/3, 1/2⟩, ⟨350, 500⟩⟩ : VLEState).imol.l0 +
            (⟨⟨1/3, 1/2, 2/3, 1/2⟩, ⟨350, 500⟩⟩ : VLEState).imol.l1) * (1 * 350) =
        (⟨⟨1/3, 1/2, 2/3, 1/2⟩, ⟨350, 500⟩⟩ : VLEState).imol.g0 /
          ((⟨⟨1/3, 1/2, 2/3, 1/2⟩, ⟨350, 500⟩⟩ : VLEState).imol.g0 +
            (⟨⟨1/3, 1/2, 2/3, 1/2⟩, ⟨350, 500⟩⟩ : VLEState).imol.g1) * 500 ∧
      (⟨⟨1/3, 1/2, 2/3, 1/2⟩, ⟨350, 500⟩⟩ : VLEState).imol.l1 /
          ((⟨⟨1/3, 1/2, 2/3, 1/2⟩, ⟨350, 500⟩⟩ : VLEState).imol.l0 +
            (⟨⟨1/3, 1/2, 2/3, 1/2⟩, ⟨350, 500⟩⟩ : VLEState).imol.l1) * (2 * 350) =
        (⟨⟨1/3, 1/2, 2/3, 1/2⟩, ⟨350, 500⟩⟩ : VLEState).imol.g1 /
          ((⟨⟨1/3, 1/2, 2/3, 1/2⟩, ⟨350, 500⟩⟩ : VLEState).imol.g0 +
            (⟨⟨1/3, 1/2, 2/3, 1/2⟩, ⟨350, 500⟩⟩ : VLEState).imol.g1) * 500) ∧
    liquidPhaseFugacities [1, 1] (mulLists [1, 1] [1/2, 1/2]) =
      liquidPhaseFugacities [1, 1] (mulLists [1, 1] ([1/2, 1/2].map (fun fi => 1 - fi))) :=
  c8_fugacity_equality (1/2) (1/2) (1/2) (1/2) 1 1 50000 80000 1 1 1 1 1 2 350 500 1 1 1 1
    (1/2) (1/2) ⟨⟨1/2, 1/2, 1/2, 1/2⟩, ⟨298, 101325⟩⟩ ⟨⟨1/3, 1/2, 2/3, 1/2⟩, ⟨350, 500⟩⟩
    (by norm_num) (by norm_num) (by norm_num) (by norm_num) (by norm_num)
    (by norm_num [flashTP, rachfordRiceV, VLEState.tot0, VLEState.tot1])
    (by norm_num) (by norm_num) (by norm_num) (by norm_num) (by norm_num) (by norm_num)
    (by norm_num) (by norm_num) (by norm_num) (by norm_num)
    (by norm_num [lleUpdate, mulLists, phaseGammas, margulesGamma])

end Thermosteam
